import Mathlib

/-!
Shallow embedding of the urban-heat-explorer scenario simulation core.

Grids (single raster bands) are modelled as flat lists of rationals; all
grid operations in the source are elementwise or global reductions, so the
2-D shape plays no role in the properties below.  Floating-point values are
modelled by `ℚ`.

Sources embedded:
  * `src/utils.py` — `pixel_size`, `compute_heat_index`, `high_heat_area`,
    `process_city` (scenario generator);
  * `src/steps/step3b_explainability.py` — the per-year vegetation update of
    the temporal ("digital twin") simulator;
  * `src/steps/step3c_costs.py` — cost / carbon / cost-efficiency scalars.
-/

abbrev Grid := List ℚ

/-- `pixel_size = 10` metres (src/utils.py line 6). -/
def pixel_size : ℚ := 10

/-- `compute_heat_index(ndvi_new, built_raster, slope_norm)` returns
`built_raster - ndvi_new + slope_norm * 0.2` (src/utils.py lines 12-13),
elementwise over the three grids. -/
def compute_heat_index (ndvi_new built_raster slope_norm : Grid) : Grid :=
  List.zipWith (fun bv s => bv.1 - bv.2 + s * (2/10))
    (List.zip built_raster ndvi_new) slope_norm

/-- `high_heat_area(heat, threshold=0.7)` =
`np.sum(heat > threshold) * pixel_size**2 / 1e6` (src/utils.py lines 15-16). -/
def high_heat_area (heat : Grid) (threshold : ℚ := 7/10) : ℚ :=
  ((heat.countP fun h => threshold < h : ℕ) : ℚ) * pixel_size ^ 2 / 1000000

/-- `np.nanpercentile(xs, q)` with the default linear interpolation method,
restricted to NaN-free data: sort, take the entry at fractional rank
`q/100 * (n-1)`, interpolating linearly between the two neighbouring order
statistics. -/
def nanpercentile (xs : List ℚ) (q : ℚ) : ℚ :=
  let s := xs.insertionSort (· ≤ ·)
  let pos : ℚ := q * ((s.length : ℚ) - 1) / 100
  let i : ℕ := (⌊pos⌋).toNat
  let lo := s.getD i 0
  let hi := s.getD (i + 1) lo
  lo + (pos - (i : ℚ)) * (hi - lo)

/-- Scenario A (Canopy), src/utils.py lines 40-42: boost `ndvi` by
`canopy_increase` (clamped at 1) at pixels where
`heat_baseline >= np.nanpercentile(heat_baseline, 80)`. -/
def scenarioA_ndvi (ndvi_norm heat_baseline : Grid) (canopy_increase : ℚ) : Grid :=
  let threshold := nanpercentile heat_baseline 80
  List.zipWith (fun h v => if threshold ≤ h then min 1 (v + canopy_increase) else v)
    heat_baseline ndvi_norm

/-- Scenario B (Green Roofs), src/utils.py lines 46-48: boost `ndvi` by
`roof_increase` (clamped at 1) at pixels where
`slope_norm < 0.05 AND built_raster == 1`. -/
def scenarioB_ndvi (ndvi_norm slope_norm built_raster : Grid) (roof_increase : ℚ) : Grid :=
  List.zipWith (fun sb v => if sb.1 < 1/20 ∧ sb.2 = 1 then min 1 (v + roof_increase) else v)
    (List.zip slope_norm built_raster) ndvi_norm

/-- Scenario C (Pocket Parks), src/utils.py lines 52-54: boost `ndvi` by
`park_increase` (clamped at 1) at pixels where
`built_raster == 0 AND ndvi_norm < 0.2` (mask read from the original ndvi). -/
def scenarioC_ndvi (ndvi_norm built_raster : Grid) (park_increase : ℚ) : Grid :=
  List.zipWith (fun b v => if b = 0 ∧ v < 1/5 then min 1 (v + park_increase) else v)
    built_raster ndvi_norm

/-- The result of `process_city` (src/utils.py lines 57-71): the `metrics`
dict (one `high_heat_area` scalar per scenario) and the `heatmaps` dict
(one heat grid per scenario), keys Baseline / A (Canopy) / B (Roofs) /
C (Parks). -/
structure CityResult where
  heat_baseline : Grid
  heat_A : Grid
  heat_B : Grid
  heat_C : Grid
  area_baseline : ℚ
  area_A : ℚ
  area_B : ℚ
  area_C : ℚ
deriving Repr, DecidableEq

/-- `process_city` (src/utils.py lines 18-71) minus raster I/O: the four
loaded grids are parameters.  The Baseline entries are the loaded
`heat_baseline` grid and its area, passed through unchanged; each scenario
perturbs a fresh copy of `ndvi_norm` and recomputes the heat index. -/
def process_city (ndvi_norm slope_norm built_raster heat_baseline : Grid)
    (canopy_increase roof_increase park_increase : ℚ) : CityResult :=
  let heat_A := compute_heat_index (scenarioA_ndvi ndvi_norm heat_baseline canopy_increase)
      built_raster slope_norm
  let heat_B := compute_heat_index (scenarioB_ndvi ndvi_norm slope_norm built_raster roof_increase)
      built_raster slope_norm
  let heat_C := compute_heat_index (scenarioC_ndvi ndvi_norm built_raster park_increase)
      built_raster slope_norm
  { heat_baseline := heat_baseline
    heat_A := heat_A
    heat_B := heat_B
    heat_C := heat_C
    area_baseline := high_heat_area heat_baseline
    area_A := high_heat_area heat_A
    area_B := high_heat_area heat_B
    area_C := high_heat_area heat_C }

/-- Elementwise combination of three lists (used for masked updates whose
mask reads two grids while the value comes from a third). -/
def zipWith3 (f : α → β → γ → δ) : List α → List β → List γ → List δ
  | a :: as, b :: bs, c :: cs => f a b c :: zipWith3 f as bs cs
  | _, _, _ => []

/-- One year of the Digital Twin simulation
(src/steps/step3b_explainability.py lines 76-85): maturity factors
`tree = min(1, y/15)`, `roof = min(1, y/5)`, `park = min(1, y/10)`; then the
three masked boosts are applied sequentially to the same working grid
`ndvi_sim` (canopy, then roof, then park), each reading the values the
previous assignment left behind; the park mask reads the original
`ndvi_norm`. -/
def ndvi_sim_year (ndvi_norm slope_norm built_raster heat_baseline : Grid)
    (canopy_increase roof_increase park_increase : ℚ) (year : ℕ) : Grid :=
  let tree_factor : ℚ := min 1 ((year : ℚ) / 15)
  let roof_factor : ℚ := min 1 ((year : ℚ) / 5)
  let park_factor : ℚ := min 1 ((year : ℚ) / 10)
  let threshold := nanpercentile heat_baseline 80
  let s1 := List.zipWith
    (fun h v => if threshold ≤ h then min 1 (v + canopy_increase * tree_factor) else v)
    heat_baseline ndvi_norm
  let s2 := zipWith3
    (fun sl b v => if sl < 1/20 ∧ b = 1 then min 1 (v + roof_increase * roof_factor) else v)
    slope_norm built_raster s1
  zipWith3
    (fun b v0 v => if b = 0 ∧ v0 < 1/5 then min 1 (v + park_increase * park_factor) else v)
    built_raster ndvi_norm s2

/-- The heat grid of one simulated year
(src/steps/step3b_explainability.py line 85). -/
def heat_sim_year (ndvi_norm slope_norm built_raster heat_baseline : Grid)
    (canopy_increase roof_increase park_increase : ℚ) (year : ℕ) : Grid :=
  compute_heat_index
    (ndvi_sim_year ndvi_norm slope_norm built_raster heat_baseline
      canopy_increase roof_increase park_increase year)
    built_raster slope_norm

/-- A Python float that is either a finite value or `float("inf")` — the two
values the cost-efficiency computation of src/steps/step3c_costs.py can
produce. -/
inductive EffVal where
  | val : ℚ → EffVal
  | inf : EffVal
deriving DecidableEq, Repr

/-- src/steps/step3c_costs.py line 98:
`euro_per_pct = cost_val / reduction_val if reduction_val > 0 else float("inf")`. -/
def euro_per_pct (cost_val reduction_val : ℚ) : EffVal :=
  if 0 < reduction_val then EffVal.val (cost_val / reduction_val) else EffVal.inf

/-- src/steps/step3c_costs.py lines 63-65: the per-city entry of the
`cost_eff` dict is created only when `total_reduction > 0`; otherwise the
city gets no entry at all. -/
def cost_eff_entry (avg_cost_city total_reduction : ℚ) : Option ℚ :=
  if 0 < total_reduction then some (avg_cost_city / total_reduction) else none

/-- The `cost_eff` dict accumulated over the per-city loop of
src/steps/step3c_costs.py (lines 47-65), given for each city its average
scenario cost and its maximal percentage reduction; this dict is what the
"most cost-efficient city" comparison (line 160) minimises over. -/
def cost_eff_map (rows : List (String × ℚ × ℚ)) : List (String × ℚ) :=
  rows.filterMap fun row => (cost_eff_entry row.2.1 row.2.2).map fun q => (row.1, q)

/-- src/steps/step3c_costs.py lines 51-52:
`area_diff_km2 = baseline - scenario; area_m2 = area_diff_km2 * 1e6`. -/
def area_diff_m2 (area_baseline_km2 area_scenario_km2 : ℚ) : ℚ :=
  (area_baseline_km2 - area_scenario_km2) * 1000000

/-- src/steps/step3c_costs.py line 57:
`avg_cost = (low + high)/2 * area_m2/1e6` (M€). -/
def avg_cost_M (low high area_baseline_km2 area_scenario_km2 : ℚ) : ℚ :=
  (low + high) / 2 * area_diff_m2 area_baseline_km2 area_scenario_km2 / 1000000

/-- src/steps/step3c_costs.py line 60:
`co2 = area_m2 * carbon_factor / 1000` (tons CO2 per year). -/
def carbon_tons_per_yr (area_baseline_km2 area_scenario_km2 carbon_factor : ℚ) : ℚ :=
  area_diff_m2 area_baseline_km2 area_scenario_km2 * carbon_factor / 1000

/-! ## Helper lemmas -/

theorem zipWith_replicate_both (f : α → β → γ) (a : α) (b : β) (n : ℕ) :
    List.zipWith f (List.replicate n a) (List.replicate n b) = List.replicate n (f a b) := by
  induction n with
  | zero => rfl
  | succ n ih => simp [List.replicate_succ, ih]

theorem zip_replicate_both (a : α) (b : β) (n : ℕ) :
    List.zip (List.replicate n a) (List.replicate n b) = List.replicate n (a, b) :=
  zipWith_replicate_both Prod.mk a b n

theorem countP_replicate (p : α → Bool) (a : α) (n : ℕ) :
    (List.replicate n a).countP p = if p a then n else 0 := by
  induction n with
  | zero => simp
  | succ n ih =>
    simp [List.replicate_succ, List.countP_cons, ih]
    split <;> simp [Nat.add_comm]

theorem getD_of_forall_eq {c : ℚ} :
    ∀ (l : List ℚ) (i : ℕ) (d : ℚ), (∀ x ∈ l, x = c) → i < l.length → l.getD i d = c
  | [], i, d, _, hi => absurd hi (by simp)
  | a :: l, 0, d, h, _ => h a (by simp)
  | a :: l, i + 1, d, h, hi => by
    simpa using getD_of_forall_eq l i d (fun x hx => h x (by simp [hx])) (by simpa using hi)

theorem getD_default_of_forall_eq {c : ℚ} :
    ∀ (l : List ℚ) (i : ℕ), (∀ x ∈ l, x = c) → l.getD i c = c
  | [], i, _ => by simp
  | a :: l, 0, h => h a (by simp)
  | a :: l, i + 1, h => by
    simpa using getD_default_of_forall_eq l i (fun x hx => h x (by simp [hx]))

theorem nanpercentile_replicate (c q : ℚ) (n : ℕ) (hn : 1 ≤ n)
    (hq : q ≤ 100) : nanpercentile (List.replicate n c) q = c := by
  simp only [nanpercentile]
  have hmem : ∀ x ∈ (List.replicate n c).insertionSort (· ≤ ·), x = c := by
    intro x hx
    exact List.eq_of_mem_replicate ((List.mem_insertionSort _).1 hx)
  have hlen : ((List.replicate n c).insertionSort (· ≤ ·)).length = n := by
    simp [List.length_insertionSort]
  rw [hlen]
  set pos : ℚ := q * ((n : ℚ) - 1) / 100 with hpos
  have hposle : pos ≤ (n : ℚ) - 1 := by
    rw [hpos]
    have h1 : (0 : ℚ) ≤ (n : ℚ) - 1 := by
      have : (1 : ℚ) ≤ (n : ℚ) := by exact_mod_cast hn
      linarith
    rw [div_le_iff₀ (by norm_num : (0:ℚ) < 100)]
    nlinarith
  have hfloor : (⌊pos⌋).toNat < n := by
    have h1 : ⌊pos⌋ ≤ (n : ℤ) - 1 := by
      have := Int.floor_le pos
      have h2 : (⌊pos⌋ : ℚ) ≤ (n : ℚ) - 1 := le_trans this hposle
      exact_mod_cast h2
    have h3 : (⌊pos⌋).toNat ≤ n - 1 := by omega
    omega
  have hlo : ((List.replicate n c).insertionSort (· ≤ ·)).getD (⌊pos⌋).toNat 0 = c :=
    getD_of_forall_eq _ _ _ hmem (by rw [hlen]; exact hfloor)
  rw [hlo]
  rw [getD_default_of_forall_eq _ _ hmem]
  ring

theorem zipWith_replicate_left_map (g : α → ℚ → ℚ) (a : α) :
    ∀ (vs : List ℚ) (n : ℕ), vs.length ≤ n →
      List.zipWith g (List.replicate n a) vs = vs.map (g a)
  | [], n, _ => by simp
  | v :: vs, n + 1, h => by
    simp only [List.replicate_succ, List.zipWith_cons_cons, List.map_cons]
    rw [zipWith_replicate_left_map g a vs n (by simpa using h)]

theorem countP_le_of_forall2 (t : ℚ) {l1 l2 : List ℚ}
    (h : List.Forall₂ (· ≤ ·) l1 l2) :
    l1.countP (fun h => t < h) ≤ l2.countP (fun h => t < h) := by
  induction h with
  | nil => simp
  | @cons a b l1 l2 hab _ ih =>
    simp only [List.countP_cons]
    have : (if (t < a : Bool) then 1 else 0) ≤ (if (t < b : Bool) then 1 else 0) := by
      by_cases hta : t < a
      · have htb : t < b := lt_of_lt_of_le hta hab
        simp [hta, htb]
      · simp [hta]
    omega

theorem high_heat_area_mono {h1 h2 : Grid}
    (h : List.Forall₂ (· ≤ ·) h1 h2) : high_heat_area h1 ≤ high_heat_area h2 := by
  unfold high_heat_area
  have hc := countP_le_of_forall2 (7/10) h
  have hc' : ((h1.countP fun x => 7/10 < x : ℕ) : ℚ) ≤ ((h2.countP fun x => 7/10 < x : ℕ) : ℚ) := by
    exact_mod_cast hc
  have hp : (0 : ℚ) < pixel_size ^ 2 := by norm_num [pixel_size]
  have := mul_le_mul_of_nonneg_right hc' (le_of_lt hp)
  linarith

theorem forall2_zipWith_of_le (g1 g2 : α → ℚ → ℚ) (hg : ∀ a v, g1 a v ≤ g2 a v) :
    ∀ (l : List α) (vs : List ℚ),
      List.Forall₂ (· ≤ ·) (List.zipWith g1 l vs) (List.zipWith g2 l vs)
  | [], _ => by simp
  | _ :: _, [] => by simp
  | a :: as, v :: vs => by
    simp only [List.zipWith_cons_cons]
    exact List.Forall₂.cons (hg a v) (forall2_zipWith_of_le g1 g2 hg as vs)

theorem compute_heat_index_antitone :
    ∀ (v1 v2 built slope : Grid), List.Forall₂ (· ≤ ·) v1 v2 →
      List.Forall₂ (· ≤ ·) (compute_heat_index v2 built slope)
        (compute_heat_index v1 built slope) := by
  intro v1 v2 built slope h
  induction h generalizing built slope with
  | nil => simp [compute_heat_index]
  | @cons a b l1 l2 hab _ ih =>
    cases built with
    | nil => simp [compute_heat_index]
    | cons bv bs =>
      cases slope with
      | nil => simp [compute_heat_index]
      | cons s ss =>
        simp only [compute_heat_index, List.zip_cons_cons, List.zipWith_cons_cons]
        exact List.Forall₂.cons (by linarith) (ih bs ss)

theorem scenarioA_ndvi_mono (ndvi hb : Grid) {b1 b2 : ℚ} (h : b1 ≤ b2) :
    List.Forall₂ (· ≤ ·) (scenarioA_ndvi ndvi hb b1) (scenarioA_ndvi ndvi hb b2) := by
  simp only [scenarioA_ndvi]
  apply forall2_zipWith_of_le
  intro a v
  by_cases hc : nanpercentile hb 80 ≤ a
  · simp only [hc, if_true]
    exact min_le_min le_rfl (by linarith)
  · simp [hc]

theorem scenarioB_ndvi_mono (ndvi slope built : Grid) {b1 b2 : ℚ} (h : b1 ≤ b2) :
    List.Forall₂ (· ≤ ·) (scenarioB_ndvi ndvi slope built b1)
      (scenarioB_ndvi ndvi slope built b2) := by
  simp only [scenarioB_ndvi]
  apply forall2_zipWith_of_le
  intro a v
  split_ifs with hc
  · exact min_le_min le_rfl (by linarith)
  · exact le_rfl

theorem scenarioC_ndvi_mono (ndvi built : Grid) {b1 b2 : ℚ} (h : b1 ≤ b2) :
    List.Forall₂ (· ≤ ·) (scenarioC_ndvi ndvi built b1) (scenarioC_ndvi ndvi built b2) := by
  simp only [scenarioC_ndvi]
  apply forall2_zipWith_of_le
  intro a v
  split_ifs with hc
  · exact min_le_min le_rfl (by linarith)
  · exact le_rfl

theorem mem_zipWith_le_one (g : α → ℚ → ℚ) (hg : ∀ a v, v ≤ 1 → g a v ≤ 1) :
    ∀ (l : List α) (vs : List ℚ), (∀ v ∈ vs, v ≤ 1) →
      ∀ x ∈ List.zipWith g l vs, x ≤ 1
  | [], vs, _, x, hx => by simp at hx
  | a :: as, [], _, x, hx => by simp at hx
  | a :: as, v :: vs, hvs, x, hx => by
    simp only [List.zipWith_cons_cons, List.mem_cons] at hx
    rcases hx with rfl | hx
    · exact hg a v (hvs v (by simp))
    · exact mem_zipWith_le_one g hg as vs (fun w hw => hvs w (by simp [hw])) x hx

theorem mem_zipWith3_le_one (g : α → β → ℚ → ℚ) (hg : ∀ a b v, v ≤ 1 → g a b v ≤ 1) :
    ∀ (l1 : List α) (l2 : List β) (vs : List ℚ), (∀ v ∈ vs, v ≤ 1) →
      ∀ x ∈ zipWith3 g l1 l2 vs, x ≤ 1
  | [], l2, vs, _, x, hx => by simp [zipWith3] at hx
  | a :: as, [], vs, _, x, hx => by simp [zipWith3] at hx
  | a :: as, b :: bs, [], _, x, hx => by simp [zipWith3] at hx
  | a :: as, b :: bs, v :: vs, hvs, x, hx => by
    simp only [zipWith3, List.mem_cons] at hx
    rcases hx with rfl | hx
    · exact hg a b v (hvs v (by simp))
    · exact mem_zipWith3_le_one g hg as bs vs (fun w hw => hvs w (by simp [hw])) x hx

theorem zipWith_masked_zero_eq_self (g : α → ℚ → ℚ) (hg : ∀ a v, v ≤ 1 → g a v = v) :
    ∀ (l : List α) (vs : List ℚ), l.length = vs.length → (∀ v ∈ vs, v ≤ 1) →
      List.zipWith g l vs = vs
  | [], [], _, _ => by simp
  | [], _ :: _, h, _ => by simp at h
  | _ :: _, [], h, _ => by simp at h
  | a :: as, v :: vs, h, hvs => by
    simp only [List.zipWith_cons_cons]
    rw [hg a v (hvs v (by simp)),
      zipWith_masked_zero_eq_self g hg as vs (by simpa using h)
        (fun w hw => hvs w (by simp [hw]))]

theorem nanpercentile_singleton (c q : ℚ) : nanpercentile [c] q = c := by
  simp [nanpercentile, List.insertionSort]

theorem length_zipWith3 (f : α → β → γ → δ) :
    ∀ (l1 : List α) (l2 : List β) (l3 : List γ),
      (zipWith3 f l1 l2 l3).length = min l1.length (min l2.length l3.length)
  | [], _, _ => by simp [zipWith3]
  | _ :: _, [], _ => by simp [zipWith3]
  | _ :: _, _ :: _, [] => by simp [zipWith3]
  | a :: as, b :: bs, c :: cs => by
    simp [zipWith3, length_zipWith3 f as bs cs]
    omega

theorem getD_zipWith (g : α → β → γ) :
    ∀ (l : List α) (vs : List β) (i : ℕ) (da : α) (db : β) (dc : γ),
      i < l.length → i < vs.length →
      (List.zipWith g l vs).getD i dc = g (l.getD i da) (vs.getD i db)
  | [], _, i, _, _, _, ha, _ => absurd ha (by simp)
  | _ :: _, [], i, _, _, _, _, hb => absurd hb (by simp)
  | a :: as, b :: bs, 0, _, _, _, _, _ => rfl
  | a :: as, b :: bs, i + 1, da, db, dc, ha, hb => by
    simpa using getD_zipWith g as bs i da db dc (by simpa using ha) (by simpa using hb)

theorem getD_zipWith3 (g : α → β → γ → δ) :
    ∀ (l1 : List α) (l2 : List β) (l3 : List γ) (i : ℕ) (d1 : α) (d2 : β) (d3 : γ) (d4 : δ),
      i < l1.length → i < l2.length → i < l3.length →
      (zipWith3 g l1 l2 l3).getD i d4 = g (l1.getD i d1) (l2.getD i d2) (l3.getD i d3)
  | [], _, _, i, _, _, _, _, h, _, _ => absurd h (by simp)
  | _ :: _, [], _, i, _, _, _, _, _, h, _ => absurd h (by simp)
  | _ :: _, _ :: _, [], i, _, _, _, _, _, _, h => absurd h (by simp)
  | a :: as, b :: bs, c :: cs, 0, _, _, _, _, _, _, _ => rfl
  | a :: as, b :: bs, c :: cs, i + 1, d1, d2, d3, d4, h1, h2, h3 => by
    simpa [zipWith3] using getD_zipWith3 g as bs cs i d1 d2 d3 d4
      (by simpa using h1) (by simpa using h2) (by simpa using h3)

theorem scenarioA_ndvi_replicate (n : ℕ) (hn : 1 ≤ n) (v h c : ℚ) :
    scenarioA_ndvi (List.replicate n v) (List.replicate n h) c =
      List.replicate n (min 1 (v + c)) := by
  simp only [scenarioA_ndvi]
  rw [nanpercentile_replicate h 80 n hn (by norm_num), zipWith_replicate_both]
  simp

theorem compute_heat_index_replicate (n : ℕ) (v b s : ℚ) :
    compute_heat_index (List.replicate n v) (List.replicate n b) (List.replicate n s) =
      List.replicate n (b - v + s * (2/10)) := by
  simp only [compute_heat_index]
  rw [zip_replicate_both, zipWith_replicate_both]

theorem high_heat_area_replicate (n : ℕ) (x : ℚ) :
    high_heat_area (List.replicate n x) =
      if 7/10 < x then (n : ℚ) * 100 / 1000000 else 0 := by
  simp only [high_heat_area, countP_replicate, pixel_size]
  by_cases hx : 7/10 < x
  · rw [if_pos (by simpa using hx), if_pos hx]
    norm_num
  · simp [hx]

theorem process_city_heat_baseline (ndvi slope built hb : Grid) (c r p : ℚ) :
    (process_city ndvi slope built hb c r p).heat_baseline = hb := rfl

theorem process_city_heat_A (ndvi slope built hb : Grid) (c r p : ℚ) :
    (process_city ndvi slope built hb c r p).heat_A =
      compute_heat_index (scenarioA_ndvi ndvi hb c) built slope := rfl

theorem process_city_heat_B (ndvi slope built hb : Grid) (c r p : ℚ) :
    (process_city ndvi slope built hb c r p).heat_B =
      compute_heat_index (scenarioB_ndvi ndvi slope built r) built slope := rfl

theorem process_city_heat_C (ndvi slope built hb : Grid) (c r p : ℚ) :
    (process_city ndvi slope built hb c r p).heat_C =
      compute_heat_index (scenarioC_ndvi ndvi built p) built slope := rfl

theorem process_city_area_baseline (ndvi slope built hb : Grid) (c r p : ℚ) :
    (process_city ndvi slope built hb c r p).area_baseline = high_heat_area hb := rfl

theorem process_city_area_A (ndvi slope built hb : Grid) (c r p : ℚ) :
    (process_city ndvi slope built hb c r p).area_A =
      high_heat_area (compute_heat_index (scenarioA_ndvi ndvi hb c) built slope) := rfl

theorem process_city_area_B (ndvi slope built hb : Grid) (c r p : ℚ) :
    (process_city ndvi slope built hb c r p).area_B =
      high_heat_area (compute_heat_index (scenarioB_ndvi ndvi slope built r) built slope) := rfl

theorem process_city_area_C (ndvi slope built hb : Grid) (c r p : ℚ) :
    (process_city ndvi slope built hb c r p).area_C =
      high_heat_area (compute_heat_index (scenarioC_ndvi ndvi built p) built slope) := rfl

theorem scenarioA_ndvi_zero (ndvi hb : Grid) (hlen : hb.length = ndvi.length)
    (hv : ∀ v ∈ ndvi, v ≤ 1) : scenarioA_ndvi ndvi hb 0 = ndvi := by
  simp only [scenarioA_ndvi]
  apply zipWith_masked_zero_eq_self _ _ _ _ hlen hv
  intro a v hv1
  split_ifs
  · rw [add_zero]
    exact min_eq_right hv1
  · rfl

theorem scenarioB_ndvi_zero (ndvi slope built : Grid)
    (hlen : (List.zip slope built).length = ndvi.length)
    (hv : ∀ v ∈ ndvi, v ≤ 1) : scenarioB_ndvi ndvi slope built 0 = ndvi := by
  simp only [scenarioB_ndvi]
  apply zipWith_masked_zero_eq_self _ _ _ _ hlen hv
  intro a v hv1
  split_ifs
  · rw [add_zero]
    exact min_eq_right hv1
  · rfl

theorem scenarioC_ndvi_zero (ndvi built : Grid) (hlen : built.length = ndvi.length)
    (hv : ∀ v ∈ ndvi, v ≤ 1) : scenarioC_ndvi ndvi built 0 = ndvi := by
  simp only [scenarioC_ndvi]
  apply zipWith_masked_zero_eq_self _ _ _ _ hlen hv
  intro a v hv1
  split_ifs
  · rw [add_zero]
    exact min_eq_right hv1
  · rfl

theorem compute_heat_index_length (v b s : Grid) :
    (compute_heat_index v b s).length = min (min b.length v.length) s.length := by
  simp [compute_heat_index]

/-! ## Claims -/

/-- Claim C1, counterexample: with all three boosts 0, `process_city` on the
1-pixel city `ndvi = [0]`, `slope = [0]`, `built = [1]`, loaded
`heat_index = [0]` yields a Canopy heat grid `[1]` that differs from the
baseline grid `[0]`, and a Canopy `high_heat_area` (`1/10000` km²) that
differs from the baseline's (`0` km²): the claimed zero-boost identity fails
for a city whose loaded `heat_index.tif` does not satisfy the heat-index
formula, because the baseline grid is the loaded raster while the scenario
grids are recomputed from the formula. -/
theorem claim_C1_counterexample :
    (process_city [0] [0] [1] [0] 0 0 0).heat_A = [1] ∧
    (process_city [0] [0] [1] [0] 0 0 0).heat_baseline = [0] ∧
    ([1] : Grid) ≠ [0] ∧
    (process_city [0] [0] [1] [0] 0 0 0).area_A = 1/10000 ∧
    (process_city [0] [0] [1] [0] 0 0 0).area_baseline = 0 ∧
    (1/10000 : ℚ) ≠ 0 := by
  refine ⟨?_, rfl, by simp, ?_, ?_, by norm_num⟩
  · rw [process_city_heat_A]
    simp [scenarioA_ndvi, nanpercentile_singleton, compute_heat_index]
  · rw [process_city_area_A]
    have : scenarioA_ndvi [0] [0] 0 = [0] := by
      simp [scenarioA_ndvi, nanpercentile_singleton]
    rw [this]
    simp [compute_heat_index, high_heat_area, pixel_size]
    norm_num [List.countP_cons]
  · rw [process_city_area_baseline]
    simp [high_heat_area]
    norm_num [List.countP_cons]

/-- Claim C1 (amended): if `canopy_boost = roof_boost = park_boost = 0`,
then for each of the three scenarios the scenario heat grid produced by
`process_city` equals the baseline heat grid exactly and the scenario's
`high_heat_area` equals the baseline's — PROVIDED the loaded baseline
`heat_index` grid itself satisfies the heat-index formula
`built - vegetation + slope*0.2` (and the grids are aligned with vegetation
values at most 1, as the data model guarantees).  Without that proviso the
identity fails, since the baseline grid is returned as loaded while
scenario grids are recomputed. -/
theorem claim_C1_zero_boost_identity (ndvi slope built hb : Grid)
    (h1 : slope.length = ndvi.length) (h2 : built.length = ndvi.length)
    (hv : ∀ v ∈ ndvi, v ≤ 1)
    (hhb : hb = compute_heat_index ndvi built slope) :
    (process_city ndvi slope built hb 0 0 0).heat_A =
      (process_city ndvi slope built hb 0 0 0).heat_baseline ∧
    (process_city ndvi slope built hb 0 0 0).heat_B =
      (process_city ndvi slope built hb 0 0 0).heat_baseline ∧
    (process_city ndvi slope built hb 0 0 0).heat_C =
      (process_city ndvi slope built hb 0 0 0).heat_baseline ∧
    (process_city ndvi slope built hb 0 0 0).area_A =
      (process_city ndvi slope built hb 0 0 0).area_baseline ∧
    (process_city ndvi slope built hb 0 0 0).area_B =
      (process_city ndvi slope built hb 0 0 0).area_baseline ∧
    (process_city ndvi slope built hb 0 0 0).area_C =
      (process_city ndvi slope built hb 0 0 0).area_baseline := by
  have hblen : hb.length = ndvi.length := by
    rw [hhb, compute_heat_index_length, h1, h2]
    simp
  have hA : scenarioA_ndvi ndvi hb 0 = ndvi := scenarioA_ndvi_zero ndvi hb hblen hv
  have hB : scenarioB_ndvi ndvi slope built 0 = ndvi := by
    apply scenarioB_ndvi_zero ndvi slope built _ hv
    simp [h1, h2]
  have hC : scenarioC_ndvi ndvi built 0 = ndvi := scenarioC_ndvi_zero ndvi built h2 hv
  refine ⟨?_, ?_, ?_, ?_, ?_, ?_⟩
  · rw [process_city_heat_A, process_city_heat_baseline, hA, ← hhb]
  · rw [process_city_heat_B, process_city_heat_baseline, hB, ← hhb]
  · rw [process_city_heat_C, process_city_heat_baseline, hC, ← hhb]
  · rw [process_city_area_A, process_city_area_baseline, hA, ← hhb]
  · rw [process_city_area_B, process_city_area_baseline, hB, ← hhb]
  · rw [process_city_area_C, process_city_area_baseline, hC, ← hhb]

/-- Witness for the amended C1: a concrete 1-pixel city whose loaded
baseline grid does satisfy the heat-index formula
(`[9/10] = compute_heat_index [1/10] [1] [0]`); there the zero-boost
identity holds. -/
theorem claim_C1_zero_boost_identity_witness :
    (process_city [1/10] [0] [1] [9/10] 0 0 0).heat_A =
      (process_city [1/10] [0] [1] [9/10] 0 0 0).heat_baseline ∧
    (process_city [1/10] [0] [1] [9/10] 0 0 0).heat_B =
      (process_city [1/10] [0] [1] [9/10] 0 0 0).heat_baseline ∧
    (process_city [1/10] [0] [1] [9/10] 0 0 0).heat_C =
      (process_city [1/10] [0] [1] [9/10] 0 0 0).heat_baseline ∧
    (process_city [1/10] [0] [1] [9/10] 0 0 0).area_A =
      (process_city [1/10] [0] [1] [9/10] 0 0 0).area_baseline ∧
    (process_city [1/10] [0] [1] [9/10] 0 0 0).area_B =
      (process_city [1/10] [0] [1] [9/10] 0 0 0).area_baseline ∧
    (process_city [1/10] [0] [1] [9/10] 0 0 0).area_C =
      (process_city [1/10] [0] [1] [9/10] 0 0 0).area_baseline :=
  claim_C1_zero_boost_identity [1/10] [0] [1] [9/10] rfl rfl
    (by intro v hv; simp at hv; norm_num [hv])
    (by simp [compute_heat_index]; norm_num)

/-- Claim C2, counterexample: a 1-pixel city whose pixel lies in both the
canopy mask (`heat_baseline = 9/10 ≥` its own 80th percentile) and the roof
mask (`slope = 0 < 0.05`, `built = 1`), with `canopy_boost = 3/10`,
`roof_boost = 1/5`, at year 15 (all maturity factors 1).  The claim's
last-applied-wins rule predicts final vegetation
`min 1 (0 + 1/5 * 1) = 1/5` (the last containing mask alone, discarding the
canopy boost), but the code produces `1/2 = min 1 (min 1 (0 + 3/10) + 1/5)`:
the later assignment reads the value the earlier one wrote, so boosts
accumulate instead of being discarded. -/
theorem claim_C2_counterexample :
    ndvi_sim_year [0] [0] [1] [9/10] (3/10) (1/5) 0 15 = [1/2] ∧
    ((1 : ℚ)/2) ≠ min 1 (0 + (1/5) * min 1 ((15 : ℚ) / 5)) := by
  constructor
  · simp [ndvi_sim_year, zipWith3, nanpercentile_singleton]
    norm_num [min_def]
  · norm_num [min_def]

/-- Claim C2 (amended): in the Temporal Simulator, the three masked boosts
are applied sequentially in the order canopy, then roof, then park, each
assignment reading the vegetation values left by the previous one: at every
pixel the final vegetation value is the composition of the clamped boosts of
ALL masks containing that pixel (each step `min 1 (previous + boost*factor)`),
not the last mask's boost alone — overlapping masks compound rather than
overwrite-discard. -/
theorem claim_C2_cumulative_boosts (ndvi slope built hb : Grid) (c r p : ℚ)
    (y i : ℕ) (h1 : slope.length = ndvi.length) (h2 : built.length = ndvi.length)
    (h3 : hb.length = ndvi.length) (hi : i < ndvi.length) :
    (ndvi_sim_year ndvi slope built hb c r p y).getD i 0 =
      (let v1 := if nanpercentile hb 80 ≤ hb.getD i 0
         then min 1 (ndvi.getD i 0 + c * min 1 ((y : ℚ) / 15)) else ndvi.getD i 0;
       let v2 := if slope.getD i 0 < 1/20 ∧ built.getD i 0 = 1
         then min 1 (v1 + r * min 1 ((y : ℚ) / 5)) else v1;
       if built.getD i 0 = 0 ∧ ndvi.getD i 0 < 1/5
         then min 1 (v2 + p * min 1 ((y : ℚ) / 10)) else v2) := by
  simp only [ndvi_sim_year]
  rw [getD_zipWith3 _ built ndvi _ i 0 0 0 0 (by omega) hi
      (by simp [length_zipWith3, List.length_zipWith, h1, h2, h3]; omega)]
  rw [getD_zipWith3 _ slope built _ i 0 0 0 0 (by omega) (by omega)
      (by simp [List.length_zipWith, h3]; omega)]
  rw [getD_zipWith _ hb ndvi i 0 0 0 (by omega) hi]

/-- Witness for the amended C2 at the 1-pixel overlap city (pixel in the
canopy and roof masks, year 15). -/
theorem claim_C2_cumulative_boosts_witness :
    (ndvi_sim_year [0] [0] [1] [9/10] (3/10) (1/5) 0 15).getD 0 0 =
      (let v1 := if nanpercentile [9/10] 80 ≤ ([9/10] : Grid).getD 0 0
         then min 1 (([0] : Grid).getD 0 0 + (3/10) * min 1 ((15 : ℚ) / 15))
         else ([0] : Grid).getD 0 0;
       let v2 := if ([0] : Grid).getD 0 0 < 1/20 ∧ ([1] : Grid).getD 0 0 = 1
         then min 1 (v1 + (1/5) * min 1 ((15 : ℚ) / 5)) else v1;
       if ([1] : Grid).getD 0 0 = 0 ∧ ([0] : Grid).getD 0 0 < 1/5
         then min 1 (v2 + 0 * min 1 ((15 : ℚ) / 10)) else v2) :=
  claim_C2_cumulative_boosts [0] [0] [1] [9/10] (3/10) (1/5) 0 15 0 rfl rfl rfl
    (by norm_num)

/-- Claim C3, counterexample: on a degenerate baseline heat grid
(`max == min`: both pixels equal `9/10`), the 80th-percentile threshold
evaluates to `9/10` and the mask `heat_baseline >= threshold` holds at EVERY
pixel, so with `canopy_boost = 3/10` both pixels are boosted
(`[0,0] ↦ [3/10, 3/10]`): the Canopy eligibility mask is full, not empty as
the claim states. -/
theorem claim_C3_counterexample :
    scenarioA_ndvi [0, 0] (List.replicate 2 (9/10)) (3/10) = [3/10, 3/10] ∧
    ([3/10, 3/10] : Grid) ≠ [0, 0] := by
  constructor
  · have h := scenarioA_ndvi_replicate 2 (by norm_num) 0 (9/10) (3/10)
    rw [show min (1:ℚ) (0 + 3/10) = 3/10 by norm_num [min_def]] at h
    simpa [List.replicate] using h
  · simp

/-- Claim C3 (amended): when the baseline heat grid is degenerate for the
Canopy percentile computation (all pixels equal), `np.nanpercentile(·, 80)`
returns that common (finite) value — no NaN/Inf is produced — and since the
mask uses `>=`, the threshold is reached by every pixel: the Canopy
eligibility mask is FULL, so every pixel is boosted
(`min 1 (v + boost)` everywhere), rather than none. -/
theorem claim_C3_degenerate_percentile (n : ℕ) (hn : 1 ≤ n) (c boost : ℚ)
    (ndvi : Grid) (hlen : ndvi.length = n) :
    nanpercentile (List.replicate n c) 80 = c ∧
    scenarioA_ndvi ndvi (List.replicate n c) boost =
      ndvi.map fun v => min 1 (v + boost) := by
  refine ⟨nanpercentile_replicate c 80 n hn (by norm_num), ?_⟩
  simp only [scenarioA_ndvi, nanpercentile_replicate c 80 n hn (by norm_num)]
  rw [zipWith_replicate_left_map _ c ndvi n (le_of_eq hlen)]
  simp

/-- Witness for the amended C3 at the degenerate two-pixel city. -/
theorem claim_C3_degenerate_percentile_witness :
    nanpercentile (List.replicate 2 ((9:ℚ)/10)) 80 = 9/10 ∧
    scenarioA_ndvi [0, 0] (List.replicate 2 ((9:ℚ)/10)) (3/10) =
      ([0, 0] : Grid).map fun v => min 1 (v + 3/10) :=
  claim_C3_degenerate_percentile 2 (by norm_num) (9/10) (3/10) [0, 0] rfl

/-- Claim C4, counterexample: on the 10×10 grid with `built = 1`,
`slope = 0`, `vegetation = 1/10` everywhere and baseline heat `9/10`
everywhere, applying Canopy with boost `3/10` does NOT yield
`high_heat_area = 0.008` km²: because all pixels tie, the 80th percentile is
`9/10` and `heat >= threshold` selects ALL 100 pixels (not 20), so every
pixel drops to heat `3/5` and the resulting `high_heat_area` is `0` km². -/
theorem claim_C4_counterexample :
    (process_city (List.replicate 100 (1/10)) (List.replicate 100 0)
        (List.replicate 100 1) (List.replicate 100 (9/10)) (3/10) 0 0).area_A = 0 ∧
    (0 : ℚ) ≠ 8/1000 := by
  constructor
  · rw [process_city_area_A,
      scenarioA_ndvi_replicate 100 (by norm_num) (1/10) (9/10) (3/10),
      show min (1:ℚ) (1/10 + 3/10) = 2/5 by norm_num [min_def],
      compute_heat_index_replicate,
      show (1:ℚ) - 2/5 + 0 * (2/10) = 3/5 by norm_num,
      high_heat_area_replicate]
    norm_num
  · norm_num

/-- Claim C4 (amended): for the concrete 10×10 input with `built = 1`,
`slope = 0`, `vegetation = 1/10`, baseline heat `9/10` everywhere
(`high_heat_area = 0.01` km²), the Canopy scenario with boost `3/10`
selects ALL 100 tied pixels (the `>=`-percentile mask is full under a tie),
raising their vegetation to `2/5` and dropping their heat to `3/5`, so the
resulting `high_heat_area` is exactly `0` km² — a reduction of `0.01` km²
(100%), not the claimed 20-pixel / `0.008` km² outcome. -/
theorem claim_C4_tied_grid_example :
    (process_city (List.replicate 100 (1/10)) (List.replicate 100 0)
        (List.replicate 100 1) (List.replicate 100 (9/10)) (3/10) 0 0).area_baseline
      = 1/100 ∧
    scenarioA_ndvi (List.replicate 100 (1/10)) (List.replicate 100 (9/10)) (3/10) =
      List.replicate 100 (2/5) ∧
    (process_city (List.replicate 100 (1/10)) (List.replicate 100 0)
        (List.replicate 100 1) (List.replicate 100 (9/10)) (3/10) 0 0).heat_A =
      List.replicate 100 (3/5) ∧
    (process_city (List.replicate 100 (1/10)) (List.replicate 100 0)
        (List.replicate 100 1) (List.replicate 100 (9/10)) (3/10) 0 0).area_A = 0 := by
  have hA : scenarioA_ndvi (List.replicate 100 (1/10)) (List.replicate 100 (9/10)) (3/10) =
      List.replicate 100 (2/5) := by
    rw [scenarioA_ndvi_replicate 100 (by norm_num) (1/10) (9/10) (3/10),
      show min (1:ℚ) (1/10 + 3/10) = 2/5 by norm_num [min_def]]
  refine ⟨?_, hA, ?_, ?_⟩
  · rw [process_city_area_baseline, high_heat_area_replicate]
    norm_num
  · rw [process_city_heat_A, hA, compute_heat_index_replicate,
      show (1:ℚ) - 2/5 + 0 * (2/10) = 3/5 by norm_num]
  · rw [process_city_area_A, hA, compute_heat_index_replicate,
      show (1:ℚ) - 2/5 + 0 * (2/10) = 3/5 by norm_num, high_heat_area_replicate]
    norm_num

/-- Claim C5: for every city input, increasing any single boost while
holding the other two fixed never increases that scenario's
`high_heat_area`: each scenario's eligibility mask is independent of its
boost, the boosted vegetation is pointwise monotone in the boost, and the
heat index is pointwise antitone in vegetation. -/
theorem claim_C5_boost_monotonic (ndvi slope built hb : Grid)
    (c1 c2 r1 r2 p1 p2 rfix pfix cfix : ℚ)
    (hc : c1 ≤ c2) (hr : r1 ≤ r2) (hp : p1 ≤ p2) :
    (process_city ndvi slope built hb c2 rfix pfix).area_A ≤
      (process_city ndvi slope built hb c1 rfix pfix).area_A ∧
    (process_city ndvi slope built hb cfix r2 pfix).area_B ≤
      (process_city ndvi slope built hb cfix r1 pfix).area_B ∧
    (process_city ndvi slope built hb cfix rfix p2).area_C ≤
      (process_city ndvi slope built hb cfix rfix p1).area_C := by
  refine ⟨?_, ?_, ?_⟩
  · rw [process_city_area_A, process_city_area_A]
    exact high_heat_area_mono
      (compute_heat_index_antitone _ _ built slope (scenarioA_ndvi_mono ndvi hb hc))
  · rw [process_city_area_B, process_city_area_B]
    exact high_heat_area_mono
      (compute_heat_index_antitone _ _ built slope (scenarioB_ndvi_mono ndvi slope built hr))
  · rw [process_city_area_C, process_city_area_C]
    exact high_heat_area_mono
      (compute_heat_index_antitone _ _ built slope (scenarioC_ndvi_mono ndvi built hp))

/-- Witness for C5 at a concrete 1-pixel city, boosts 0 ≤ 3/10. -/
theorem claim_C5_boost_monotonic_witness :
    (process_city [1/10] [0] [1] [9/10] (3/10) 0 0).area_A ≤
      (process_city [1/10] [0] [1] [9/10] 0 0 0).area_A ∧
    (process_city [1/10] [0] [1] [9/10] 0 (3/10) 0).area_B ≤
      (process_city [1/10] [0] [1] [9/10] 0 0 0).area_B ∧
    (process_city [1/10] [0] [1] [9/10] 0 0 (3/10)).area_C ≤
      (process_city [1/10] [0] [1] [9/10] 0 0 0).area_C :=
  claim_C5_boost_monotonic [1/10] [0] [1] [9/10] 0 (3/10) 0 (3/10) 0 (3/10) 0 0 0
    (by norm_num) (by norm_num) (by norm_num)

/-- Claim C6: for all pixels and all boost values, both in the per-scenario
generator (`process_city`) and in every year of the temporal simulator, the
vegetation grid resulting from applying a boost has every value at most 1:
boosted pixels are clamped by `min 1 ·` and unboosted pixels keep their
input value, which the data model normalizes to `[0, 1]`. -/
theorem claim_C6_vegetation_clamped (ndvi slope built hb : Grid) (c r p : ℚ)
    (hv : ∀ v ∈ ndvi, v ≤ 1) :
    (∀ x ∈ scenarioA_ndvi ndvi hb c, x ≤ 1) ∧
    (∀ x ∈ scenarioB_ndvi ndvi slope built r, x ≤ 1) ∧
    (∀ x ∈ scenarioC_ndvi ndvi built p, x ≤ 1) ∧
    (∀ year : ℕ, ∀ x ∈ ndvi_sim_year ndvi slope built hb c r p year, x ≤ 1) := by
  have hmask : ∀ (t : Prop) [Decidable t] (b v : ℚ), v ≤ 1 →
      (if t then min 1 (v + b) else v) ≤ 1 := by
    intro t _ b v hv1
    split_ifs
    · exact min_le_left 1 _
    · exact hv1
  refine ⟨?_, ?_, ?_, ?_⟩
  · simp only [scenarioA_ndvi]
    exact mem_zipWith_le_one _ (fun a v hv1 => hmask _ _ _ hv1) hb ndvi hv
  · simp only [scenarioB_ndvi]
    exact mem_zipWith_le_one _ (fun a v hv1 => hmask _ _ _ hv1) _ ndvi hv
  · simp only [scenarioC_ndvi]
    exact mem_zipWith_le_one _ (fun a v hv1 => hmask _ _ _ hv1) built ndvi hv
  · intro year
    simp only [ndvi_sim_year]
    apply mem_zipWith3_le_one _ (fun a b v hv1 => hmask _ _ _ hv1) built ndvi
    apply mem_zipWith3_le_one _ (fun a b v hv1 => hmask _ _ _ hv1) slope built
    exact mem_zipWith_le_one _ (fun a v hv1 => hmask _ _ _ hv1) hb ndvi hv

/-- Witness for C6 at a concrete 1-pixel city with boosts 3/10. -/
theorem claim_C6_vegetation_clamped_witness :
    (∀ x ∈ scenarioA_ndvi [1/10] [9/10] (3/10), x ≤ 1) ∧
    (∀ x ∈ scenarioB_ndvi [1/10] [0] [1] (3/10), x ≤ 1) ∧
    (∀ x ∈ scenarioC_ndvi [1/10] [1] (3/10), x ≤ 1) ∧
    (∀ year : ℕ, ∀ x ∈ ndvi_sim_year [1/10] [0] [1] [9/10] (3/10) (3/10) (3/10) year,
      x ≤ 1) :=
  claim_C6_vegetation_clamped [1/10] [0] [1] [9/10] (3/10) (3/10) (3/10)
    (by intro v hv; simp at hv; norm_num [hv])

/-- Claim C7: the three scenarios are mutually independent.  Two runs of
`process_city` on the same input grids differing only in one scenario's
boost value produce identical heat grids and high-heat areas for the other
two scenarios (and for the baseline); in the embedding each scenario reads
the untouched input vegetation grid, mirroring the source's
`ndvi_norm.copy()` copy semantics under which no scenario mutates the
vegetation seen by the others. -/
theorem claim_C7_scenario_independence (ndvi slope built hb : Grid)
    (c c' r r' p p' : ℚ) :
    ((process_city ndvi slope built hb c r p).heat_B =
        (process_city ndvi slope built hb c' r p).heat_B ∧
      (process_city ndvi slope built hb c r p).area_B =
        (process_city ndvi slope built hb c' r p).area_B ∧
      (process_city ndvi slope built hb c r p).heat_C =
        (process_city ndvi slope built hb c' r p).heat_C ∧
      (process_city ndvi slope built hb c r p).area_C =
        (process_city ndvi slope built hb c' r p).area_C) ∧
    ((process_city ndvi slope built hb c r p).heat_A =
        (process_city ndvi slope built hb c r' p).heat_A ∧
      (process_city ndvi slope built hb c r p).area_A =
        (process_city ndvi slope built hb c r' p).area_A ∧
      (process_city ndvi slope built hb c r p).heat_C =
        (process_city ndvi slope built hb c r' p).heat_C ∧
      (process_city ndvi slope built hb c r p).area_C =
        (process_city ndvi slope built hb c r' p).area_C) ∧
    ((process_city ndvi slope built hb c r p).heat_A =
        (process_city ndvi slope built hb c r p').heat_A ∧
      (process_city ndvi slope built hb c r p).area_A =
        (process_city ndvi slope built hb c r p').area_A ∧
      (process_city ndvi slope built hb c r p).heat_B =
        (process_city ndvi slope built hb c r p').heat_B ∧
      (process_city ndvi slope built hb c r p).area_B =
        (process_city ndvi slope built hb c r p').area_B) ∧
    (process_city ndvi slope built hb c r p).heat_baseline =
      (process_city ndvi slope built hb c' r' p').heat_baseline ∧
    (process_city ndvi slope built hb c r p).area_baseline =
      (process_city ndvi slope built hb c' r' p').area_baseline :=
  ⟨⟨rfl, rfl, rfl, rfl⟩, ⟨rfl, rfl, rfl, rfl⟩, ⟨rfl, rfl, rfl, rfl⟩, rfl, rfl⟩

/-- Claim C8, counterexample: the per-city cost-efficiency ratio is NOT
always kept in the rankings when the reduction is non-positive — a city
whose maximal percentage reduction is 0 gets no `cost_eff` entry at all
(src/steps/step3c_costs.py lines 63-65), so it is silently absent from the
"most cost-efficient city" comparison, even though the per-scenario ratio
does use the `float("inf")` sentinel. -/
theorem claim_C8_counterexample :
    euro_per_pct 5 0 = EffVal.inf ∧
    cost_eff_map [("Athens", 5, 0)] = [] ∧
    ¬ ∃ q : ℚ, ("Athens", q) ∈ cost_eff_map [("Athens", 5, 0)] := by
  refine ⟨?_, ?_, ?_⟩
  · simp [euro_per_pct]
  · simp [cost_eff_map, cost_eff_entry]
  · simp [cost_eff_map, cost_eff_entry]

/-- Claim C8 (amended): when `pct_reduction ≤ 0`, the per-(city, scenario)
cost-efficiency ratio is the distinct sentinel `float("inf")` — never a
finite value, in particular never coerced to 0; the per-city aggregate
ratio, however, is simply not recorded (its city is omitted from the
`cost_eff` dict and hence from the most-cost-efficient-city comparison). -/
theorem claim_C8_sentinel (cost_val reduction_val avg_cost total_reduction : ℚ)
    (hred : reduction_val ≤ 0) (htot : total_reduction ≤ 0) :
    euro_per_pct cost_val reduction_val = EffVal.inf ∧
    (∀ q : ℚ, euro_per_pct cost_val reduction_val ≠ EffVal.val q) ∧
    cost_eff_entry avg_cost total_reduction = none := by
  have h1 : ¬ (0 < reduction_val) := not_lt.mpr hred
  have h2 : ¬ (0 < total_reduction) := not_lt.mpr htot
  refine ⟨?_, ?_, ?_⟩
  · simp [euro_per_pct, h1]
  · intro q
    simp [euro_per_pct, h1]
  · simp [cost_eff_entry, h2]

/-- Witness for the amended C8 at concrete values. -/
theorem claim_C8_sentinel_witness :
    euro_per_pct 5 0 = EffVal.inf ∧
    (∀ q : ℚ, euro_per_pct 5 0 ≠ EffVal.val q) ∧
    cost_eff_entry 7 (-2) = none :=
  claim_C8_sentinel 5 0 7 (-2) (by norm_num) (by norm_num)

/-- Claim C9: the Economics/Carbon Estimator computes
`area_diff_m2 = (area_baseline_km2 - area_scenario_km2) * 1e6` with no
clamping to zero, so when a scenario increases the high-heat area
(`area_scenario > area_baseline`) the derived cost and carbon values are
strictly negative rather than zero. -/
theorem claim_C9_negative_signal (ab as low high cf : ℚ)
    (hinc : ab < as) (hcf : 0 < cf) (hcost : 0 < low + high) :
    area_diff_m2 ab as = (ab - as) * 1000000 ∧
    area_diff_m2 ab as < 0 ∧
    carbon_tons_per_yr ab as cf < 0 ∧
    avg_cost_M low high ab as < 0 := by
  have hdiff : area_diff_m2 ab as < 0 := by
    simp only [area_diff_m2]
    nlinarith
  refine ⟨rfl, hdiff, ?_, ?_⟩
  · simp only [carbon_tons_per_yr]
    have : area_diff_m2 ab as * cf < 0 := mul_neg_of_neg_of_pos hdiff hcf
    linarith
  · simp only [avg_cost_M]
    have : (low + high) / 2 * area_diff_m2 ab as < 0 :=
      mul_neg_of_pos_of_neg (by linarith) hdiff
    linarith

/-- Witness for C9: baseline area 0.01 km², scenario area 0.02 km²
(counter-productive scenario), cost band 10-20 €/m², carbon factor 5. -/
theorem claim_C9_negative_signal_witness :
    area_diff_m2 (1/100) (2/100) = ((1:ℚ)/100 - 2/100) * 1000000 ∧
    area_diff_m2 (1/100) (2/100) < 0 ∧
    carbon_tons_per_yr (1/100) (2/100) 5 < 0 ∧
    avg_cost_M 10 20 (1/100) (2/100) < 0 :=
  claim_C9_negative_signal (1/100) (2/100) 10 20 5
    (by norm_num) (by norm_num) (by norm_num)

/-- Claim C10: the `Baseline` entries of the metrics and heatmaps returned
by `process_city` are the separately loaded `heat_index` raster (and its
area), returned unchanged for every input and every boost — never recomputed
from the vegetation/built/slope inputs via the heat-index formula.
Consequently baseline and scenario grids need not agree even at zero boost:
at the concrete 1-pixel input below, whose loaded grid `[2]` violates the
formula `built - vegetation + slope*0.2 = [1]`, the Baseline heat grid stays
`[2]` while the zero-boost Canopy grid is `[1]`. -/
theorem claim_C10_baseline_is_loaded_raster (ndvi slope built hb : Grid)
    (c r p : ℚ) :
    (process_city ndvi slope built hb c r p).heat_baseline = hb ∧
    (process_city ndvi slope built hb c r p).area_baseline = high_heat_area hb ∧
    (process_city [0] [0] [1] [2] 0 0 0).heat_baseline = [2] ∧
    (process_city [0] [0] [1] [2] 0 0 0).heat_A = [1] ∧
    ([2] : Grid) ≠ compute_heat_index [0] [1] [0] := by
  refine ⟨rfl, rfl, rfl, ?_, ?_⟩
  · rw [process_city_heat_A]
    simp [scenarioA_ndvi, nanpercentile_singleton, compute_heat_index]
  · simp [compute_heat_index]
